import Mathlib

/-!
Verification development for the EviCal command-line calendar utility
(`evical_cmd.py`): a shallow embedding of the four CLI command handlers
(`list_upcoming_events`, `list_events_for_month`, `add_event`,
`delete_event`) and their helpers (`_create_service`,
`_pretty_print_table`), together with theorems settling the behavioural
claims of the specification.

Modelling conventions:
 - Instants in time are epoch milliseconds (`Int`); the proleptic
   Gregorian conversion performed by Python's `datetime` is embedded as
   `days_from_civil` (valid for years ≥ 1, which covers `datetime`'s
   `MINYEAR`..`MAXYEAR` domain).
 - The remote calendar service and the interactive answers are an
   environment `Env` recording the responses each request would get;
   each handler maps the environment and its CLI arguments to a
   `CmdResult` carrying the printed output, the network operations
   issued (in order), and either normal return or the uncaught Python
   exception.
 - Python exceptions are the inductive `PyError`; a caught-and-printed
   error shows up in `printed` while an uncaught one shows up in
   `outcome`.
-/

namespace EviCal

/-- A parsed `datetime` value (year, month, day, hour, minute), as
produced by `datetime.strptime(s, "%Y-%m-%d %H:%M")`. -/
structure DateTime where
  year : Nat
  month : Nat
  day : Nat
  hour : Nat
  minute : Nat
deriving DecidableEq, Repr

/-- Numeric value of a decimal digit character. -/
def dval (c : Char) : Nat := c.toNat - 48

/-- Model of one CPython `strptime` numeric directive whose regex is a
two-digit alternative over the range `[lo, hi]` with a one-digit
fallback accepting first digits ≥ `oneLo` (e.g. `%m` is
`1[0-2]|0[1-9]|[1-9]`, i.e. `lo=1, hi=12, oneLo=1`; `%H` is
`2[0-3]|[0-1]\d|\d`, i.e. `lo=0, hi=23, oneLo=0`). Returns the value
and the unconsumed characters. -/
def matchNum2 (lo hi oneLo : Nat) : List Char → Option (Nat × List Char)
  | c1 :: c2 :: rest =>
    if c1.isDigit ∧ c2.isDigit ∧ lo ≤ dval c1 * 10 + dval c2 ∧ dval c1 * 10 + dval c2 ≤ hi then
      some (dval c1 * 10 + dval c2, rest)
    else if c1.isDigit ∧ oneLo ≤ dval c1 then
      some (dval c1, c2 :: rest)
    else none
  | [c1] => if c1.isDigit ∧ oneLo ≤ dval c1 then some (dval c1, []) else none
  | [] => none

/-- The `%Y` directive: exactly four decimal digits. -/
def matchY : List Char → Option (Nat × List Char)
  | c1 :: c2 :: c3 :: c4 :: rest =>
    if c1.isDigit ∧ c2.isDigit ∧ c3.isDigit ∧ c4.isDigit then
      some (((dval c1 * 10 + dval c2) * 10 + dval c3) * 10 + dval c4, rest)
    else none
  | _ => none

/-- A literal character of the format string. -/
def matchLit (c : Char) : List Char → Option (List Char)
  | x :: rest => if x = c then some rest else none
  | [] => none

/-- Gregorian leap-year test, as used by `datetime`. -/
def isLeap (y : Nat) : Bool := (y % 4 == 0 && y % 100 != 0) || y % 400 == 0

/-- Number of days in a month of a given year. -/
def days_in_month (y m : Nat) : Nat :=
  if m = 2 then (if isLeap y then 29 else 28)
  else if m = 4 ∨ m = 6 ∨ m = 9 ∨ m = 11 then 30
  else 31

/-- Embedding of `datetime.strptime(s, "%Y-%m-%d %H:%M")`: the five
directives with their literal separators, requiring the whole string to
be consumed, followed by the `datetime` constructor's range checks
(year ≥ MINYEAR = 1, day within the month). `none` models the
`ValueError` CPython raises on failure. -/
def strptime_YmdHM (s : String) : Option DateTime := do
  let (y, r) ← matchY s.data
  let r ← matchLit '-' r
  let (m, r) ← matchNum2 1 12 1 r
  let r ← matchLit '-' r
  let (d, r) ← matchNum2 1 31 1 r
  let r ← matchLit ' ' r
  let (hh, r) ← matchNum2 0 23 0 r
  let r ← matchLit ':' r
  let (mi, r) ← matchNum2 0 59 0 r
  guard r.isEmpty
  guard (1 ≤ y)
  guard (d ≤ days_in_month y m)
  pure ⟨y, m, d, hh, mi⟩

/-- Days since the epoch 1970-01-01 of the civil date `(y, m, d)` in the
proleptic Gregorian calendar (the standard `days_from_civil`
computation); all intermediate quantities are non-negative for `y ≥ 1`,
the domain of Python's `datetime`. -/
def days_from_civil (y m d : Int) : Int :=
  let yAdj := if m ≤ 2 then y - 1 else y
  let era := yAdj / 400
  let yoe := yAdj - era * 400
  let mp := if 2 < m then m - 3 else m + 9
  let doy := (153 * mp + 2) / 5 + d - 1
  let doe := yoe * 365 + yoe / 4 - yoe / 100 + doy
  era * 146097 + doe - 719468

/-- Epoch milliseconds of `datetime(year, month, 1).astimezone()`: the
first instant of the month in a local time zone whose UTC offset is
`tzOffsetMs` milliseconds. -/
def localFirstInstantMs (tzOffsetMs : Int) (year month : Int) : Int :=
  days_from_civil year month 1 * 86400000 - tzOffsetMs

/-- The `DateRange` computed by `list_events_for_month` (source lines
91–99): `start_date = datetime(year, month, 1).astimezone()`, then the
in-place rollover `if month < 12: month += 1 else: month = 1; year += 1`,
then `end_date = datetime(year, month, 1).astimezone() -
timedelta(milliseconds=1)`. -/
def monthRange (tz : Int) (year month : Int) : Int × Int :=
  let start_date := localFirstInstantMs tz year month
  let ym : Int × Int := if month < 12 then (year, month + 1) else (year + 1, 1)
  let end_date := localFirstInstantMs tz ym.1 ym.2 - 1
  (start_date, end_date)

/-- The `DateRange` as the specification words it: start = first instant
of `(year, month)` locally, end = first instant of the next month minus
one millisecond, where the next month of `(y, 12)` is `(y+1, 1)` and of
`(y, m)` otherwise `(y, m+1)`. -/
def dateRangeSpec (tz : Int) (year month : Int) : Int × Int :=
  (localFirstInstantMs tz year month,
   (if month = 12 then localFirstInstantMs tz (year + 1) 1
    else localFirstInstantMs tz year (month + 1)) - 1)

/-- The fixed header row prepended by `_pretty_print_table`. -/
def headerRow : List String := ["start", "id", "title"]

/-- A constructed `PrettyTable`: its field names and its data rows. -/
structure TableOut where
  fields : List String
  rows : List (List String)
deriving DecidableEq, Repr

/-- `PrettyTable.add_rows`: succeeds iff every row has as many values as
there are field names, else raises (the library's "Row has incorrect
number of values" error). -/
def addRows (fields : List String) (rows : List (List String)) : Except String TableOut :=
  if rows.all (fun r => r.length == fields.length) then .ok ⟨fields, rows⟩
  else .error "Row has incorrect number of values"

/-- Embedding of `_pretty_print_table(item_list)` (source lines 50–54):
`item_list.insert(0, ['start', 'id', 'title'])` mutates the caller's
list in place, then `PrettyTable(item_list[0])` / `add_rows(item_list[1:])`
builds the table that is printed. The first component is the caller's
list after the call (Python lists are passed by reference); the second
is the table built, or the error raised. -/
def _pretty_print_table (item_list : List (List String)) :
    List (List String) × Except String TableOut :=
  let item_list := headerRow :: item_list
  (item_list,
   match item_list with
   | [] => .error "list index out of range"
   | h :: t => addRows h t)

/-- A row of CLI table data, as the three-tuples
`(start, id, title)` the list commands build. -/
def tripleRow (t : String × String × String) : List String :=
  [t.1, t.2.1, t.2.2]

/-- An event as delivered by the calendar service, restricted to the
fields the commands read: `start.dateTime`, `start.date`, `id`,
`summary`, `htmlLink`. -/
structure Event where
  startDateTime : Option String
  startDate : Option String
  id : String
  summary : String
  htmlLink : Option String
deriving DecidableEq, Repr

/-- `event['start'].get('dateTime', event['start'].get('date'))`,
rendered as a string (Python's `None` prints as "None"). -/
def Event.startStr (e : Event) : String :=
  ((e.startDateTime).orElse fun _ => e.startDate).getD "None"

/-- The `(start, id, title)` row an event contributes to the table. -/
def eventRow (e : Event) : List String :=
  tripleRow (e.startStr, e.id, e.summary)

/-- The body of an `events().insert` request, as built by `add_event`. -/
structure EventBody where
  summary : String
  location : String
  description : String
  startDT : DateTime
  endDT : DateTime
  timeZone : String
deriving DecidableEq, Repr

/-- A remote/network operation issued by a command, in order of
issuance. `createService` stands for the whole `_create_service()`
call: the OAuth credential load/refresh/consent flow plus
`build('calendar', 'v3')`. -/
inductive NetOp where
  | createService
  | list (timeMin : Int) (timeMax : Option Int) (maxResults : Option Int)
  | insert (body : EventBody)
  | get (eventId : String)
  | delete (eventId : String)
deriving DecidableEq, Repr

/-- A line of output produced by a command: a plain printed line, a
printed table, or the `click.confirm` prompt. -/
inductive Out where
  | line (s : String)
  | table (fields : List String) (rows : List (List String))
  | prompt (s : String)
deriving DecidableEq, Repr

/-- The Python exception classes the handlers can raise. -/
inductive PyError where
  | httpError (msg : String)
  | assertionError
  | valueError (msg : String)
  | attributeError (msg : String)
deriving DecidableEq, Repr

/-- The environment of one CLI invocation: what `build` would do, the
current time and local UTC offset, the response every kind of request
would get from the calendar service, and the interactive
yes/no answer. An `Except.error msg` response models an `HttpError`
(non-2xx) raised by `execute()`. -/
structure Env where
  buildResult : Except String Unit
  nowMs : Int
  tzOffsetMs : Int
  listResponse : Except String (List Event)
  insertResponse : Except String Event
  getResponse : Except String Event
  deleteResponse : Except String Unit
  confirmAnswer : Bool

/-- Result of running one command handler: the output produced, the
network operations issued in order, and `none` for a normal return or
`some e` for an exception `e` that escaped the handler. -/
structure CmdResult where
  printed : List Out
  netOps : List NetOp
  outcome : Option PyError
deriving DecidableEq, Repr

/-- The `AttributeError` raised by `None.events()` when
`_create_service` returned `None`. -/
def noneAttrError : PyError :=
  .attributeError "NoneType object has no attribute events"

/-- Embedding of `_create_service()` (source lines 23–40): the
credential flow then `build`; on `HttpError` from `build` it prints
`An error occurred: ...` and falls through, returning `None`. -/
def _create_service (env : Env) : List Out × Option Unit :=
  match env.buildResult with
  | .ok _ => ([], some ())
  | .error e => ([.line ("An error occurred: " ++ e)], none)

/-- Embedding of the `list_upcoming_events` command (source lines
57–79): create the service, then inside `try/except HttpError` print
the header line and issue the list request; an empty item list prints
`No upcoming events found.`; otherwise the rows are pretty-printed.
`service.events()` on `None` raises `AttributeError`, which the
`except HttpError` clause does not catch. -/
def list_upcoming_events (env : Env) (num : Int) : CmdResult :=
  let cs := _create_service env
  let pr := cs.1 ++ [Out.line ("Getting the upcoming " ++ toString num ++ " events")]
  match cs.2 with
  | none => ⟨pr, [.createService], some noneAttrError⟩
  | some _ =>
    let op := NetOp.list env.nowMs none (some num)
    match env.listResponse with
    | .error e => ⟨pr ++ [.line ("An error occurred: " ++ e)], [.createService, op], none⟩
    | .ok events =>
      if events.isEmpty then
        ⟨pr ++ [.line "No upcoming events found."], [.createService, op], none⟩
      else
        match (_pretty_print_table (events.map eventRow)).2 with
        | .ok t => ⟨pr ++ [.table t.fields t.rows], [.createService, op], none⟩
        | .error e => ⟨pr, [.createService, op], some (.valueError e)⟩

/-- Embedding of the `list_events_for_month` command (source lines
83–115): `assert(month >= 1 and month <= 12)` runs first; only then is
the service created, the date range computed, the header printed and
the list request issued, with the same `except HttpError` handling as
`list_upcoming_events`. -/
def list_events_for_month (env : Env) (year month : Int) : CmdResult :=
  if 1 ≤ month ∧ month ≤ 12 then
    let cs := _create_service env
    let r := monthRange env.tzOffsetMs year month
    let pr := cs.1 ++
      [Out.line ("Getting the events in from:" ++ toString r.1 ++ " to:" ++ toString r.2)]
    match cs.2 with
    | none => ⟨pr, [.createService], some noneAttrError⟩
    | some _ =>
      let op := NetOp.list r.1 (some r.2) none
      match env.listResponse with
      | .error e => ⟨pr ++ [.line ("An error occurred: " ++ e)], [.createService, op], none⟩
      | .ok events =>
        if events.isEmpty then
          ⟨pr ++ [.line "No upcoming events found."], [.createService, op], none⟩
        else
          match (_pretty_print_table (events.map eventRow)).2 with
          | .ok t => ⟨pr ++ [.table t.fields t.rows], [.createService, op], none⟩
          | .error e => ⟨pr, [.createService, op], some (.valueError e)⟩
  else
    ⟨[], [], some .assertionError⟩

/-- Embedding of the `add_event` command (source lines 118–146): the
service is created FIRST (line 126), then the two date strings are
parsed (lines 127–128, raising `ValueError` on failure), then the body
is built and the insert issued; there is no `try/except`, so `HttpError`
from the insert propagates out of the handler. -/
def add_event (env : Env) (title start_datetime end_datetime tzname location description :
    String) : CmdResult :=
  let cs := _create_service env
  match strptime_YmdHM start_datetime with
  | none => ⟨cs.1, [.createService],
      some (.valueError ("time data " ++ start_datetime ++
        " does not match format %Y-%m-%d %H:%M"))⟩
  | some st =>
    match strptime_YmdHM end_datetime with
    | none => ⟨cs.1, [.createService],
        some (.valueError ("time data " ++ end_datetime ++
          " does not match format %Y-%m-%d %H:%M"))⟩
    | some en =>
      match cs.2 with
      | none => ⟨cs.1, [.createService], some noneAttrError⟩
      | some _ =>
        let body : EventBody := ⟨title, location, description, st, en, tzname⟩
        match env.insertResponse with
        | .error e => ⟨cs.1, [.createService, .insert body], some (.httpError e)⟩
        | .ok ev => ⟨cs.1 ++
            [.line ("Event created successfully: " ++ ev.htmlLink.getD "None")],
            [.createService, .insert body], none⟩

/-- Embedding of the `delete_event` command (source lines 149–158): the
service is created, the event is fetched with `events().get` (an
`HttpError`, e.g. 404 for an absent id, propagates — there is no
`try/except` and no prompt has been shown yet), then `click.confirm`
asks; only on a yes answer is `events().delete` issued and the success
line printed, else `You did not delete the event.` is printed. -/
def delete_event (env : Env) (id : String) : CmdResult :=
  let cs := _create_service env
  match cs.2 with
  | none => ⟨cs.1, [.createService], some noneAttrError⟩
  | some _ =>
    match env.getResponse with
    | .error e => ⟨cs.1, [.createService, .get id], some (.httpError e)⟩
    | .ok ev =>
      let promptMsg :=
        "Do you want to delete this event: " ++ ev.startStr ++ ": " ++ ev.summary ++ "?"
      if env.confirmAnswer then
        match env.deleteResponse with
        | .error e => ⟨cs.1 ++ [.prompt promptMsg],
            [.createService, .get id, .delete id], some (.httpError e)⟩
        | .ok _ => ⟨cs.1 ++ [.prompt promptMsg,
            .line ("Event has been deleted successfully: " ++ ev.startStr ++ ": " ++ ev.summary)],
            [.createService, .get id, .delete id], none⟩
      else
        ⟨cs.1 ++ [.prompt promptMsg, .line "You did not delete the event."],
          [.createService, .get id], none⟩

/-- A sample event as the service could return it. -/
def evSample : Event := ⟨some "2022-10-10T18:00:00", none, "abc", "Standup", none⟩

/-- Environment: service builds, list returns no events, insert and get
would fail remotely. -/
def envOkEmpty : Env :=
  ⟨.ok (), 1665417600000, -3600000, .ok [], .error "500 Backend Error",
   .error "404 Not Found", .ok (), true⟩

/-- Environment: service builds but every calendar request gets a
non-2xx response. -/
def envRemoteFail : Env :=
  ⟨.ok (), 0, 0, .error "503 Service Unavailable", .error "500 Backend Error",
   .error "404 Not Found", .error "500 Backend Error", true⟩

/-- Environment: service builds, get and delete succeed, user confirms. -/
def envDeleteOk : Env :=
  ⟨.ok (), 0, 0, .ok [], .error "500 Backend Error", .ok evSample, .ok (), true⟩

/-- Environment: service builds, get succeeds, user declines the
confirmation. -/
def envDeclined : Env :=
  ⟨.ok (), 0, 0, .ok [], .error "500 Backend Error", .ok evSample, .ok (), false⟩

/-- Environment: `build` itself raises `HttpError`. -/
def envBuildFail : Env :=
  ⟨.error "<HttpError 500>", 0, 0, .ok [], .error "x", .ok evSample, .ok (), true⟩

/-- `_pretty_print_table` builds its table from the header and the
original rows. -/
theorem pretty_snd (l : List (List String)) :
    (_pretty_print_table l).2 = addRows headerRow l := rfl

/-- `add_rows` succeeds when every row has the three header columns. -/
theorem addRows_ok_of_len3 (l : List (List String)) (h : ∀ r ∈ l, r.length = 3) :
    addRows headerRow l = .ok ⟨headerRow, l⟩ := by
  have hall : (l.all fun r => r.length == headerRow.length) = true := by
    simp only [List.all_eq_true, beq_iff_eq, headerRow, List.length_cons, List.length_nil]
    intro r hr
    exact h r hr
  simp [addRows, hall]

/-- Pretty-printing the rows built from any event list succeeds. -/
theorem pretty_table_events_ok (events : List Event) :
    (_pretty_print_table (events.map eventRow)).2 = .ok ⟨headerRow, events.map eventRow⟩ := by
  rw [pretty_snd]
  apply addRows_ok_of_len3
  intro r hr
  rw [List.mem_map] at hr
  obtain ⟨ev, _, rfl⟩ := hr
  rfl

/-- Claim C1: for every (year, month) with month in [1,12], the
DateRange computed by the month-listing operation has start = the first
instant of (year, month) in the local time zone and end = the first
instant of the next month minus one millisecond, with month rollover
(month 12 → (year+1, 1), otherwise (year, month+1)); moreover the
command's list request carries exactly this range. -/
theorem C1_month_range (env : Env) (tz year month : Int)
    (h1 : 1 ≤ month) (h2 : month ≤ 12) :
    monthRange tz year month = dateRangeSpec tz year month ∧
    (env.buildResult = .ok () →
      (list_events_for_month env year month).netOps =
        [.createService,
         .list (monthRange env.tzOffsetMs year month).1
           (some (monthRange env.tzOffsetMs year month).2) none]) := by
  constructor
  · by_cases h12 : month = 12
    · subst h12
      norm_num [monthRange, dateRangeSpec]
    · have hlt : month < 12 := by omega
      simp [monthRange, dateRangeSpec, hlt, h12]
  · intro hb
    simp only [list_events_for_month, if_pos (And.intro h1 h2), _create_service, hb]
    rcases hl : env.listResponse with e | events
    · simp
    · rcases events with _ | ⟨ev, evs⟩
      · simp
      · simp only [List.map_cons]
        rw [show eventRow ev :: List.map eventRow evs = (ev :: evs).map eventRow from rfl,
          pretty_table_events_ok]
        simp

/-- Witness for C1 at (year, month) = (2022, 12) with a one-hour-east
local offset. -/
theorem C1_month_range_witness :
    monthRange (-3600000) 2022 12 = dateRangeSpec (-3600000) 2022 12 ∧
    (list_events_for_month envOkEmpty 2022 12).netOps =
      [.createService,
       .list (monthRange envOkEmpty.tzOffsetMs 2022 12).1
         (some (monthRange envOkEmpty.tzOffsetMs 2022 12).2) none] := by
  have h := C1_month_range envOkEmpty (-3600000) 2022 12 (by norm_num) (by norm_num)
  exact ⟨h.1, h.2 rfl⟩

/-- Claim C3: for every month value outside [1,12], the list-month
command fails (the `assert` raises) before the service is created and
before any network call: the trace has no output, no network operation,
and terminates with the assertion failure. -/
theorem C3_month_validation (env : Env) (year month : Int)
    (h : month < 1 ∨ 12 < month) :
    list_events_for_month env year month = ⟨[], [], some .assertionError⟩ := by
  have hn : ¬(1 ≤ month ∧ month ≤ 12) := by omega
  simp [list_events_for_month, hn]

/-- Witness for C3 at month = 0 and month = 13. -/
theorem C3_month_validation_witness :
    list_events_for_month envOkEmpty 2022 0 = ⟨[], [], some .assertionError⟩ ∧
    list_events_for_month envOkEmpty 2022 13 = ⟨[], [], some .assertionError⟩ :=
  ⟨C3_month_validation envOkEmpty 2022 0 (by norm_num),
   C3_month_validation envOkEmpty 2022 13 (by norm_num)⟩

/-- Counterexample to claim C7: the render helper does mutate the
caller's row sequence — after the call the caller's list has the header
prepended, so it differs from what was passed in. -/
theorem C7_counterexample :
    (_pretty_print_table [["a", "b", "c"]]).1 ≠ [["a", "b", "c"]] := by
  decide

/-- Claim C7 (amended): `_pretty_print_table` is pure formatting except
that it mutates its argument by prepending the fixed header row in
place: after the call the caller's sequence is exactly the header row
followed by the original rows, and no other state is modified. -/
theorem C7_render_mutates (item_list : List (List String)) :
    (_pretty_print_table item_list).1 = headerRow :: item_list := rfl

/-- Claim C8: render applied to the empty row sequence produces a
header-only table containing the fixed header row (start, id, title),
and on any sequence of (start, id, title) rows it never throws. -/
theorem C8_render_total (rs : List (String × String × String)) :
    (_pretty_print_table ([] : List (List String))).2 = .ok ⟨headerRow, []⟩ ∧
    (_pretty_print_table (rs.map tripleRow)).2 = .ok ⟨headerRow, rs.map tripleRow⟩ := by
  constructor
  · rfl
  · rw [pretty_snd]
    apply addRows_ok_of_len3
    intro r hr
    rw [List.mem_map] at hr
    obtain ⟨t, _, rfl⟩ := hr
    rfl

/-- Counterexample to claim C2: a failing insert response is NOT caught
at the command boundary — `add_event` terminates with the uncaught
`HttpError` and never prints an `An error occurred:` line; the
propagation claim fails for the create operation. -/
theorem C2_counterexample :
    (add_event envRemoteFail "t" "2022-10-10 18:00" "2022-10-10 19:00"
        "UTC" "loc" "desc").outcome = some (.httpError "500 Backend Error") ∧
    Out.line "An error occurred: 500 Backend Error" ∉
      (add_event envRemoteFail "t" "2022-10-10 18:00" "2022-10-10 19:00"
        "UTC" "loc" "desc").printed := by
  decide

/-- Claim C2 (amended): the two list commands catch `HttpError` from
the list request at the command boundary, print a single
`An error occurred:` line, return normally and issue the request
exactly once (no retry); the create and delete commands have no such
boundary — an `HttpError` from insert, from the delete-side get, or
from the delete itself propagates out of the handler uncaught. -/
theorem C2_error_boundary (env : Env) (num year month : Int) (e : String)
    (hb : env.buildResult = .ok ()) (hl : env.listResponse = .error e)
    (hm1 : 1 ≤ month) (hm2 : month ≤ 12) :
    (list_upcoming_events env num =
      ⟨[.line ("Getting the upcoming " ++ toString num ++ " events"),
        .line ("An error occurred: " ++ e)],
       [.createService, .list env.nowMs none (some num)], none⟩) ∧
    ((list_events_for_month env year month).outcome = none ∧
     (list_events_for_month env year month).netOps =
       [.createService, .list (monthRange env.tzOffsetMs year month).1
          (some (monthRange env.tzOffsetMs year month).2) none] ∧
     Out.line ("An error occurred: " ++ e) ∈ (list_events_for_month env year month).printed) ∧
    (∀ t sd ed tzn l d st en e2, strptime_YmdHM sd = some st → strptime_YmdHM ed = some en →
      env.insertResponse = .error e2 →
      (add_event env t sd ed tzn l d).outcome = some (.httpError e2)) ∧
    (∀ i e3, env.getResponse = .error e3 →
      (delete_event env i).outcome = some (.httpError e3)) ∧
    (∀ i ev e4, env.getResponse = .ok ev → env.confirmAnswer = true →
      env.deleteResponse = .error e4 →
      (delete_event env i).outcome = some (.httpError e4)) := by
  refine ⟨?_, ⟨?_, ?_, ?_⟩, ?_, ?_, ?_⟩
  · simp [list_upcoming_events, _create_service, hb, hl]
  · simp [list_events_for_month, if_pos (And.intro hm1 hm2), _create_service, hb, hl]
  · simp [list_events_for_month, if_pos (And.intro hm1 hm2), _create_service, hb, hl]
  · simp [list_events_for_month, if_pos (And.intro hm1 hm2), _create_service, hb, hl]
  · intro t sd ed tzn l d st en e2 hsd hed hins
    simp [add_event, _create_service, hb, hsd, hed, hins]
  · intro i e3 hg
    simp [delete_event, _create_service, hb, hg]
  · intro i ev e4 hg hc hd
    simp [delete_event, _create_service, hb, hg, hc, hd]

/-- Witness for C2 (amended) in an environment where every calendar
request fails with a non-2xx response. -/
theorem C2_error_boundary_witness :
    (list_upcoming_events envRemoteFail 10).outcome = none ∧
    (add_event envRemoteFail "t" "2022-10-10 18:00" "2022-10-10 19:00"
      "UTC" "l" "d").outcome = some (.httpError "500 Backend Error") ∧
    (delete_event envRemoteFail "x").outcome = some (.httpError "404 Not Found") := by
  have h := C2_error_boundary envRemoteFail 10 2022 5 "503 Service Unavailable"
    rfl rfl (by norm_num) (by norm_num)
  refine ⟨by rw [h.1], ?_, ?_⟩
  · exact h.2.2.1 "t" "2022-10-10 18:00" "2022-10-10 19:00" "UTC" "l" "d"
      ⟨2022, 10, 10, 18, 0⟩ ⟨2022, 10, 10, 19, 0⟩ "500 Backend Error"
      (by decide) (by decide) rfl
  · exact h.2.2.2.1 "x" "404 Not Found" rfl

/-- Counterexample to claim C4: when the start string does not parse,
`add_event` raises the `ValueError` only AFTER `_create_service()` has
run — the trace of a failing parse still contains the service
construction (credential flow and `build`), so the validation failure
does not occur before every network call. -/
theorem C4_counterexample :
    strptime_YmdHM "10/10/2022 18:00" = none ∧
    (add_event envRemoteFail "t" "10/10/2022 18:00" "2022-10-10 19:00"
        "UTC" "l" "d").outcome =
      some (.valueError
        "time data 10/10/2022 18:00 does not match format %Y-%m-%d %H:%M") ∧
    (add_event envRemoteFail "t" "10/10/2022 18:00" "2022-10-10 19:00"
        "UTC" "l" "d").netOps = [.createService] ∧
    (add_event envRemoteFail "t" "10/10/2022 18:00" "2022-10-10 19:00"
        "UTC" "l" "d").netOps ≠ [] := by
  decide

/-- Claim C4 (amended): the create operation parses start/end against
the fixed literal format `%Y-%m-%d %H:%M`; if either fails to parse the
command raises `ValueError` before the insert request is issued — but
only after the service construction (credential refresh/consent and
`build`), which the handler performs first. -/
theorem C4_parse_before_insert (env : Env) (t sd ed tzn l d : String) :
    (strptime_YmdHM sd = none →
      add_event env t sd ed tzn l d =
        ⟨(_create_service env).1, [.createService],
         some (.valueError ("time data " ++ sd ++
           " does not match format %Y-%m-%d %H:%M"))⟩) ∧
    (∀ st, strptime_YmdHM sd = some st → strptime_YmdHM ed = none →
      add_event env t sd ed tzn l d =
        ⟨(_create_service env).1, [.createService],
         some (.valueError ("time data " ++ ed ++
           " does not match format %Y-%m-%d %H:%M"))⟩) := by
  constructor
  · intro hsd
    simp [add_event, hsd]
  · intro st hsd hed
    simp [add_event, hsd, hed]

/-- Witness for C4 (amended) on an unparseable start string. -/
theorem C4_parse_before_insert_witness :
    add_event envRemoteFail "t" "10/10/2022 18:00" "2022-10-10 19:00" "UTC" "l" "d" =
      ⟨(_create_service envRemoteFail).1, [.createService],
       some (.valueError
         "time data 10/10/2022 18:00 does not match format %Y-%m-%d %H:%M")⟩ :=
  (C4_parse_before_insert envRemoteFail "t" "10/10/2022 18:00" "2022-10-10 19:00"
    "UTC" "l" "d").1 (by decide)

/-- Claim C5: the delete operation fetches the target record first; if
the id does not exist the get fails (404 `HttpError`, the spec's
`NotFoundError`) with nothing printed — in particular no confirmation
prompt — and on success (id exists, user confirms, delete succeeds) the
printed report carries the fetched record's start and summary. -/
theorem C5_delete_fetches_first (env : Env) (i : String)
    (hb : env.buildResult = .ok ()) :
    (∀ e, env.getResponse = .error e →
      delete_event env i = ⟨[], [.createService, .get i], some (.httpError e)⟩) ∧
    (∀ ev, env.getResponse = .ok ev → env.confirmAnswer = true →
      env.deleteResponse = .ok () →
      delete_event env i =
        ⟨[.prompt ("Do you want to delete this event: " ++ ev.startStr ++ ": " ++
            ev.summary ++ "?"),
          .line ("Event has been deleted successfully: " ++ ev.startStr ++ ": " ++
            ev.summary)],
         [.createService, .get i, .delete i], none⟩) := by
  constructor
  · intro e hg
    simp [delete_event, _create_service, hb, hg]
  · intro ev hg hc hd
    simp [delete_event, _create_service, hb, hg, hc, hd]

/-- Witness for C5: a 404 on the get, and a confirmed successful
delete. -/
theorem C5_delete_fetches_first_witness :
    delete_event envRemoteFail "nope" =
      ⟨[], [.createService, .get "nope"], some (.httpError "404 Not Found")⟩ ∧
    delete_event envDeleteOk "abc" =
      ⟨[.prompt ("Do you want to delete this event: " ++ evSample.startStr ++ ": " ++
          evSample.summary ++ "?"),
        .line ("Event has been deleted successfully: " ++ evSample.startStr ++ ": " ++
          evSample.summary)],
       [.createService, .get "abc", .delete "abc"], none⟩ :=
  ⟨(C5_delete_fetches_first envRemoteFail "nope" rfl).1 "404 Not Found" rfl,
   (C5_delete_fetches_first envDeleteOk "abc" rfl).2 evSample rfl rfl rfl⟩

/-- Claim C6: the delete-event command never issues the remote delete
without a preceding affirmative confirmation — whenever the delete
operation appears in the trace the answer was yes and a prompt was
shown; and when the confirmation is declined no delete request is sent
and the non-deletion status line is printed. -/
theorem C6_confirm_gates_delete (env : Env) (i : String) :
    (NetOp.delete i ∈ (delete_event env i).netOps →
      env.confirmAnswer = true ∧ ∃ s, Out.prompt s ∈ (delete_event env i).printed) ∧
    (env.confirmAnswer = false →
      NetOp.delete i ∉ (delete_event env i).netOps ∧
      (∀ ev, env.buildResult = .ok () → env.getResponse = .ok ev →
        Out.line "You did not delete the event." ∈ (delete_event env i).printed)) := by
  obtain ⟨br, nows, tzo, lr, ir, gr, dr, ca⟩ := env
  rcases br with e | u
  · simp [delete_event, _create_service]
  · rcases gr with e | ev
    · simp [delete_event, _create_service]
    · rcases ca
      · simp [delete_event, _create_service]
      · rcases dr with e | u2 <;> simp [delete_event, _create_service]

/-- Witness for C6 in an environment where the user declines. -/
theorem C6_confirm_gates_delete_witness :
    NetOp.delete "abc" ∉ (delete_event envDeclined "abc").netOps ∧
    Out.line "You did not delete the event." ∈ (delete_event envDeclined "abc").printed :=
  ⟨((C6_confirm_gates_delete envDeclined "abc").2 rfl).1,
   ((C6_confirm_gates_delete envDeclined "abc").2 rfl).2 evSample rfl rfl⟩

/-- Claim C9: for both list operations, an empty item list from the
service is not an error: the command prints exactly the header line
followed by `No upcoming events found.`, issues the single list request,
renders no table, and returns normally. -/
theorem C9_empty_result (env : Env) (num year month : Int)
    (hb : env.buildResult = .ok ()) (hl : env.listResponse = .ok [])
    (hm1 : 1 ≤ month) (hm2 : month ≤ 12) :
    list_upcoming_events env num =
      ⟨[.line ("Getting the upcoming " ++ toString num ++ " events"),
        .line "No upcoming events found."],
       [.createService, .list env.nowMs none (some num)], none⟩ ∧
    list_events_for_month env year month =
      ⟨[.line ("Getting the events in from:" ++
          toString (monthRange env.tzOffsetMs year month).1 ++ " to:" ++
          toString (monthRange env.tzOffsetMs year month).2),
        .line "No upcoming events found."],
       [.createService, .list (monthRange env.tzOffsetMs year month).1
          (some (monthRange env.tzOffsetMs year month).2) none], none⟩ := by
  constructor
  · simp [list_upcoming_events, _create_service, hb, hl]
  · simp [list_events_for_month, if_pos (And.intro hm1 hm2), _create_service, hb, hl]

/-- Witness for C9 at num = 10 and (year, month) = (2022, 5). -/
theorem C9_empty_result_witness :
    list_upcoming_events envOkEmpty 10 =
      ⟨[.line "Getting the upcoming 10 events", .line "No upcoming events found."],
       [.createService, .list envOkEmpty.nowMs none (some 10)], none⟩ ∧
    list_events_for_month envOkEmpty 2022 5 =
      ⟨[.line ("Getting the events in from:" ++
          toString (monthRange envOkEmpty.tzOffsetMs 2022 5).1 ++ " to:" ++
          toString (monthRange envOkEmpty.tzOffsetMs 2022 5).2),
        .line "No upcoming events found."],
       [.createService, .list (monthRange envOkEmpty.tzOffsetMs 2022 5).1
          (some (monthRange envOkEmpty.tzOffsetMs 2022 5).2) none], none⟩ :=
  C9_empty_result envOkEmpty 10 2022 5 rfl rfl (by norm_num) (by norm_num)

/-- Claim C10 (implicit): when `build` raises `HttpError`,
`_create_service` prints the error message and falls through returning
`None`; every handler then calls `service.events()` on `None`, so each
command terminates with an unhandled `AttributeError` (not caught by
the `except HttpError` clauses) after the printed message, issuing no
calendar request. -/
theorem C10_build_failure (env : Env) (num year month : Int)
    (e i t tzn l d sd ed : String) (st en : DateTime)
    (hb : env.buildResult = .error e)
    (hm1 : 1 ≤ month) (hm2 : month ≤ 12)
    (hsd : strptime_YmdHM sd = some st) (hed : strptime_YmdHM ed = some en) :
    list_upcoming_events env num =
      ⟨[.line ("An error occurred: " ++ e),
        .line ("Getting the upcoming " ++ toString num ++ " events")],
       [.createService], some noneAttrError⟩ ∧
    list_events_for_month env year month =
      ⟨[.line ("An error occurred: " ++ e),
        .line ("Getting the events in from:" ++
          toString (monthRange env.tzOffsetMs year month).1 ++ " to:" ++
          toString (monthRange env.tzOffsetMs year month).2)],
       [.createService], some noneAttrError⟩ ∧
    add_event env t sd ed tzn l d =
      ⟨[.line ("An error occurred: " ++ e)], [.createService], some noneAttrError⟩ ∧
    delete_event env i =
      ⟨[.line ("An error occurred: " ++ e)], [.createService], some noneAttrError⟩ := by
  refine ⟨?_, ?_, ?_, ?_⟩
  · simp [list_upcoming_events, _create_service, hb]
  · simp [list_events_for_month, if_pos (And.intro hm1 hm2), _create_service, hb]
  · simp [add_event, _create_service, hb, hsd, hed]
  · simp [delete_event, _create_service, hb]

/-- Witness for C10 with a concrete failing `build`. -/
theorem C10_build_failure_witness :
    (list_upcoming_events envBuildFail 10).outcome = some noneAttrError ∧
    (list_events_for_month envBuildFail 2022 5).outcome = some noneAttrError ∧
    (add_event envBuildFail "t" "2022-10-10 18:00" "2022-10-10 19:00"
      "UTC" "l" "d").outcome = some noneAttrError ∧
    (delete_event envBuildFail "abc").outcome = some noneAttrError := by
  have h := C10_build_failure envBuildFail 10 2022 5 "<HttpError 500>" "abc" "t"
    "UTC" "l" "d" "2022-10-10 18:00" "2022-10-10 19:00"
    ⟨2022, 10, 10, 18, 0⟩ ⟨2022, 10, 10, 19, 0⟩ rfl (by norm_num) (by norm_num)
    (by decide) (by decide)
  exact ⟨by rw [h.1], by rw [h.2.1], by rw [h.2.2.1], by rw [h.2.2.2]⟩

end EviCal
